import Mathlib

/-!
# Verification of the random-weather server

A shallow embedding of the Express server in `src/server.ts` of the
random-weather repository.  The server exposes `GET /api/randomWeather`:
it repeatedly (up to 10 attempts) draws a random city from a static list,
reverse-geocodes the city's coordinates via Nominatim, fetches a forecast
from Open-Meteo, and on the first fully successful attempt assembles a
`WeatherResponse`; after 10 failed attempts it answers 503 with a fixed
error body.

JavaScript numbers are modelled as `ℚ` (the claims under study never
depend on floating-point rounding), JS `undefined`/`null` as `Option`,
and the outcome of each outbound HTTP call as a `NetResult` environment
value (transport error / timeout, non-2xx status, or a parsed body).
The retry loop is embedded as a recursion over the remaining attempts
that also records a trace of observable events (city draws, outbound
calls, sleeps), so that claims about "how many delays happen" are
provable statements about the trace.
-/

namespace RW

/-- A record of `data/cities.json`, mirroring the `City` interface
(`server.ts` lines 17–23). -/
structure City where
  name : String
  country : String
  latitude : ℚ
  longitude : ℚ
  population : ℚ
deriving DecidableEq, Repr

/-- The optional `address` object of a Nominatim reply
(`server.ts` lines 27–33). -/
structure NominatimAddress where
  country : Option String
  city : Option String
  town : Option String
  village : Option String
  state : Option String
deriving DecidableEq, Repr

/-- The `NominatimResponse` interface (`server.ts` lines 25–34): both the
display name and the address are optional. -/
structure NominatimResponse where
  display_name : Option String
  address : Option NominatimAddress
deriving DecidableEq, Repr

/-- The `current` section of an Open-Meteo reply (`server.ts` lines 38–41). -/
structure MeteoCurrent where
  temperature_2m : ℚ
  wind_speed_10m : ℚ
deriving DecidableEq, Repr

/-- The `hourly` section of an Open-Meteo reply (`server.ts` lines 42–46):
three parallel arrays. -/
structure MeteoHourly where
  time : List String
  temperature_2m : List ℚ
  wind_speed_10m : List ℚ
deriving DecidableEq, Repr

/-- The `OpenMeteoResponse` interface (`server.ts` lines 36–47); `current`
and `hourly` may be absent. -/
structure OpenMeteoResponse where
  timezone : String
  current : Option MeteoCurrent
  hourly : Option MeteoHourly
deriving DecidableEq, Repr

/-- Outcome of one outbound HTTP call, as seen by the server code:
`err` is a thrown error (transport failure, or the 10-second timeout
aborting the request), `notOk` a response with a non-2xx status, and
`ok` a 2xx response with its parsed JSON body. -/
inductive NetResult (α : Type) where
  | err : NetResult α
  | notOk (status : Nat) : NetResult α
  | ok (body : α) : NetResult α
deriving DecidableEq, Repr

/-- The normalized location built by `reverseGeocode` (`server.ts`
line 112): a display name and a country, and nothing else — in
particular no coordinates. -/
structure Resolved where
  displayName : String
  country : String
deriving DecidableEq, Repr

/-- The function `reverseGeocode` (`server.ts` lines 112–141): a thrown error or a
non-2xx status yields `null`; otherwise the reply is used only when
`data.display_name && data.address?.country` is truthy (in JavaScript an
absent field or an empty string is falsy), in which case the display
name and country are returned. -/
def reverseGeocode (net : NetResult NominatimResponse) : Option Resolved :=
  match net with
  | .err => none
  | .notOk _ => none
  | .ok d =>
    match d.display_name, d.address.bind (fun a => a.country) with
    | some dn, some c => if dn = "" ∨ c = "" then none else some ⟨dn, c⟩
    | some _, none => none
    | none, _ => none

/-- The function `fetchWeather` (`server.ts` lines 144–161): a thrown error or a
non-2xx status yields `null`; any 2xx body is returned as parsed,
without further validation. -/
def fetchWeather (net : NetResult OpenMeteoResponse) : Option OpenMeteoResponse :=
  match net with
  | .err => none
  | .notOk _ => none
  | .ok d => some d

/-- The guard the request handler applies to `fetchWeather`'s result
(`server.ts` line 195): `!weatherData || !weatherData.current ||
!weatherData.hourly` is treated as a failed attempt.  Composing it with
`fetchWeather` gives the spec's Weather-Client operation
`fetchForecast`, which succeeds only with both sections present. -/
def weatherCheck (wd : Option OpenMeteoResponse) :
    Option (OpenMeteoResponse × MeteoCurrent × MeteoHourly) :=
  match wd with
  | none => none
  | some w =>
    match w.current, w.hourly with
    | some c, some h => some (w, c, h)
    | some _, none => none
    | none, _ => none

/-- The spec's `fetchForecast` operation: `fetchWeather` followed by the
handler's current/hourly presence check (`server.ts` lines 144–161 and
195). -/
def fetchForecast (net : NetResult OpenMeteoResponse) :
    Option (OpenMeteoResponse × MeteoCurrent × MeteoHourly) :=
  weatherCheck (fetchWeather net)

/-- The index computed by `getRandomCity` (`server.ts` line 107):
`Math.floor(Math.random() * cities.length)`, where `r` stands for the
value drawn by `Math.random()`. -/
def randomIndex (n : Nat) (r : ℚ) : ℤ :=
  Int.floor (r * (n : ℚ))

/-- The function `getRandomCity` (`server.ts` lines 106–109): index the city array at
`Math.floor(Math.random() * cities.length)`.  An out-of-bounds array
access yields `undefined` in JavaScript, modelled as `none`. -/
def getRandomCity (cities : List City) (r : ℚ) : Option City :=
  if h : 0 ≤ randomIndex cities.length r ∧
      randomIndex cities.length r < (cities.length : ℤ) then
    some (cities.get ⟨(randomIndex cities.length r).toNat, by omega⟩)
  else none

/-- One entry of the `hourly` array of a `WeatherResponse`
(`server.ts` lines 64–68).  The temperature and wind speed are looked up
in the parallel arrays by index, which in JavaScript yields `undefined`
when the index is past the end; hence `Option ℚ`. -/
structure HourlyEntry where
  time : String
  temperature : Option ℚ
  windSpeed : Option ℚ
deriving DecidableEq, Repr

/-- The list `hourlyForecast` (`server.ts` lines 204–208):
`weatherData.hourly.time.slice(0, 24).map((time, index) => ...)`,
pairing each of the first 24 time stamps with the same-index entries of
the temperature and wind-speed arrays. -/
def hourlyForecast (h : MeteoHourly) : List HourlyEntry :=
  (h.time.take 24).mapIdx fun i t =>
    ⟨t, h.temperature_2m.get? i, h.wind_speed_10m.get? i⟩

/-- The `chosenPlace` part of a `WeatherResponse` (`server.ts` lines 50–56). -/
structure ChosenPlace where
  displayName : String
  country : String
  latitude : ℚ
  longitude : ℚ
  timezone : String
deriving DecidableEq, Repr

/-- The `forecast.current` part of a `WeatherResponse` (`server.ts` lines 58–63). -/
structure CurrentOut where
  temperature : ℚ
  temperatureUnit : String
  windSpeed : ℚ
  windSpeedUnit : String
deriving DecidableEq, Repr

/-- The `forecast` part of a `WeatherResponse` (`server.ts` lines 57–69). -/
structure Forecast where
  current : CurrentOut
  hourly : List HourlyEntry
deriving DecidableEq, Repr

/-- The `dataSources` part of a `WeatherResponse` (`server.ts` lines 70–73). -/
structure DataSources where
  geocoding : String
  weather : String
deriving DecidableEq, Repr

/-- The `WeatherResponse` interface (`server.ts` lines 49–74). -/
structure WeatherResponse where
  chosenPlace : ChosenPlace
  forecast : Forecast
  dataSources : DataSources
deriving DecidableEq, Repr

/-- The response object built on a fully successful attempt
(`server.ts` lines 211–232), from the drawn city, the geocoding result,
and the weather data (whose `current` and `hourly` sections have been
checked present).  The `temperatureUnit` literal is copied byte-for-byte
from the source file, where it reads "¬∞C" — a mojibake of the
"°C" the README documents. -/
def buildResponse (city : City) (geo : Resolved) (wd : OpenMeteoResponse)
    (cur : MeteoCurrent) (hr : MeteoHourly) : WeatherResponse :=
  { chosenPlace :=
      { displayName := geo.displayName
        country := geo.country
        latitude := city.latitude
        longitude := city.longitude
        timezone := wd.timezone }
    forecast :=
      { current :=
          { temperature := cur.temperature_2m
            temperatureUnit := "¬∞C"
            windSpeed := cur.wind_speed_10m
            windSpeedUnit := "km/h" }
        hourly := hourlyForecast hr }
    dataSources :=
      { geocoding := "OpenStreetMap Nominatim (https://nominatim.openstreetmap.org)"
        weather := "Open-Meteo (https://open-meteo.com)" } }

/-- The fixed 503 body (`server.ts` lines 240–243). -/
structure ErrorBody where
  error : String
  message : String
deriving DecidableEq, Repr

/-- The literal error body sent on exhaustion (`server.ts` lines 240–243). -/
def errorBody : ErrorBody :=
  { error := "Service Unavailable"
    message := "Unable to resolve a valid location after multiple attempts. The geocoding service may be temporarily unavailable or rate-limited. Please try again in a few moments." }

/-- A JSON body sent by the endpoint: either a `WeatherResponse`
(`res.json(response)`) or the fixed error object
(`res.status(503).json(...)`). -/
inductive Body where
  | weather (w : WeatherResponse) : Body
  | error (e : ErrorBody) : Body
deriving DecidableEq, Repr

/-- Observable outcome of one request: an HTTP response with a status
code and a body, or a crash of the handler (an uncaught JavaScript
exception, e.g. reading `.name` of `undefined` when the city array
access is out of bounds). -/
inductive ReqOutcome where
  | respond (status : Nat) (body : Body) : ReqOutcome
  | crash : ReqOutcome
deriving DecidableEq, Repr

/-- Observable events of one request, in order: drawing a city,
calling the geocoding service, calling the weather service, and
sleeping between attempts. -/
inductive Event where
  | draw (c : City) : Event
  | geoCall : Event
  | weatherCall : Event
  | sleep (ms : Nat) : Event
deriving DecidableEq, Repr

/-- The constant `maxAttempts` (`server.ts` line 170). -/
def maxAttempts : Nat := 10

/-- The constant `retryDelay`, in milliseconds (`server.ts` line 171). -/
def retryDelay : Nat := 1100

/-- The environment of one attempt of the retry loop: the value drawn by
`Math.random()` and the network outcomes of the geocoding and weather
calls the attempt would make. -/
structure Attempt where
  r : ℚ
  geoNet : NetResult NominatimResponse
  weatherNet : NetResult OpenMeteoResponse
deriving DecidableEq

/-- Result of one attempt of the loop body (`server.ts` lines 173–236):
a crash, a fully successful attempt carrying the assembled response, or
a failed attempt (geocoding or weather check failed) that falls through
to the retry logic. -/
inductive StepRes where
  | crash : StepRes
  | success (resp : WeatherResponse) : StepRes
  | fail : StepRes
deriving DecidableEq, Repr

/-- One iteration of the loop body (`server.ts` lines 173–236), with the
events it emits: draw a city (a failed array access crashes the handler
at the first property read), reverse-geocode, and — only if geocoding
succeeded — fetch the weather and check its `current`/`hourly` sections;
on full success build the `WeatherResponse`. -/
def runStep (cities : List City) (a : Attempt) : List Event × StepRes :=
  match getRandomCity cities a.r with
  | none => ([], .crash)
  | some city =>
    match reverseGeocode a.geoNet with
    | none => ([.draw city, .geoCall], .fail)
    | some geo =>
      match weatherCheck (fetchWeather a.weatherNet) with
      | none => ([.draw city, .geoCall, .weatherCall], .fail)
      | some (wd, cur, hr) =>
        ([.draw city, .geoCall, .weatherCall],
          .success (buildResponse city geo wd cur hr))

/-- The retry loop of the handler (`server.ts` lines 173–244), running
attempts `attempt, attempt+1, ...` with `fuel` iterations remaining
(`fuel = maxAttempts - attempt + 1` at every call).  On a failed attempt
it sleeps `retryDelay` before the next one — but not after the last
(`if (attempt < maxAttempts)`) — and once attempts are exhausted it
responds 503 with the fixed error body. -/
def go (cities : List City) (env : Nat → Attempt) : Nat → Nat → List Event × ReqOutcome
  | _, 0 => ([], .respond 503 (.error errorBody))
  | attempt, fuel + 1 =>
    match runStep cities (env attempt) with
    | (evs, .crash) => (evs, .crash)
    | (evs, .success resp) => (evs, .respond 200 (.weather resp))
    | (evs, .fail) =>
      if attempt < maxAttempts then
        let rest := go cities env (attempt + 1) fuel
        (evs ++ Event.sleep retryDelay :: rest.1, rest.2)
      else
        (evs, .respond 503 (.error errorBody))

/-- The full `GET /api/randomWeather` handler (`server.ts` lines
169–244): run the retry loop from attempt 1 with `maxAttempts`
iterations available, returning the emitted events and the HTTP
outcome. -/
def handleRequest (cities : List City) (env : Nat → Attempt) :
    List Event × ReqOutcome :=
  go cities env 1 maxAttempts

/-- Outcome of process startup. -/
inductive StartResult where
  | exited (code : Nat) : StartResult
  | serving (cities : List City) : StartResult
deriving DecidableEq, Repr

/-- The startup dataset load (`server.ts` lines 77–87): `raw = none`
models `readFileSync` or `JSON.parse` throwing (missing or unparsable
dataset), on which the process calls `process.exit(1)`; any parsed
array — including the empty one — is accepted and the server starts. -/
def startup (raw : Option (List City)) : StartResult :=
  match raw with
  | none => .exited 1
  | some cs => .serving cs

/-- Is an event a city draw? -/
def isDraw : Event → Bool
  | .draw _ => true
  | _ => false

/-- Is an event a geocoding call? -/
def isGeoCall : Event → Bool
  | .geoCall => true
  | _ => false

/-- Is an event a weather call? -/
def isWeatherCall : Event → Bool
  | .weatherCall => true
  | _ => false

/-- Is an event a sleep? -/
def isSleep : Event → Bool
  | .sleep _ => true
  | _ => false

/-! ### Concrete sample data

A one-city dataset and fixed per-attempt environments, used to
instantiate the theorems below on closed inputs (mirroring the spec's
concrete `Testville` scenario). -/

/-- The spec's concrete test city. -/
def city0 : City := ⟨"Testville", "Test Country", 10, 20, 1000⟩

/-- An environment where every outbound call fails with a transport
error. -/
def envFail : Nat → Attempt := fun _ => ⟨0, .err, .err⟩

/-- A Nominatim reply resolving the test city. -/
def goodGeo : NetResult NominatimResponse :=
  .ok ⟨some "Testville, Test Country", some ⟨some "Test Country", none, none, none, none⟩⟩

/-- Sample hourly section: two aligned entries. -/
def hourly0 : MeteoHourly :=
  ⟨["2024-01-15T14:00", "2024-01-15T15:00"], [15, 16], [5, 6]⟩

/-- Sample current section. -/
def cur0 : MeteoCurrent := ⟨15, 5⟩

/-- An Open-Meteo reply with both sections present. -/
def wd0 : OpenMeteoResponse := ⟨"Etc/UTC", some cur0, some hourly0⟩

/-- An environment where every attempt fully succeeds. -/
def envGood : Nat → Attempt := fun _ => ⟨0, goodGeo, .ok wd0⟩

/-- The resolved location of the successful sample attempt. -/
def geo0 : Resolved := ⟨"Testville, Test Country", "Test Country"⟩

/-- The response assembled on the successful sample attempt. -/
def resp0 : WeatherResponse := buildResponse city0 geo0 wd0 cur0 hourly0

/-! ### Helper lemmas -/

lemma randomIndex_zero (n : Nat) : randomIndex n 0 = 0 := by
  simp [randomIndex]

lemma getRandomCity_cons_zero (c : City) (cs : List City) :
    getRandomCity (c :: cs) 0 = some c := by
  simp [getRandomCity, randomIndex_zero]

lemma randomIndex_nonneg (n : Nat) (r : ℚ) (h0 : 0 ≤ r) :
    0 ≤ randomIndex n r := by
  have : (0 : ℚ) ≤ r * (n : ℚ) := mul_nonneg h0 (by positivity)
  simpa [randomIndex] using Int.le_floor.mpr (by simpa using this)

lemma randomIndex_lt (n : Nat) (r : ℚ) (hn : 0 < n) (h1 : r < 1) :
    randomIndex n r < (n : ℤ) := by
  have hnq : (0 : ℚ) < (n : ℚ) := by exact_mod_cast hn
  have : r * (n : ℚ) < (n : ℚ) := by
    calc r * (n : ℚ) < 1 * (n : ℚ) := by
          exact mul_lt_mul_of_pos_right h1 hnq
      _ = (n : ℚ) := one_mul _
  exact Int.floor_lt.mpr (by simpa using this)

lemma getRandomCity_eq_some (cities : List City) (r : ℚ)
    (hne : cities ≠ []) (h0 : 0 ≤ r) (h1 : r < 1) :
    ∃ c, getRandomCity cities r = some c ∧ c ∈ cities := by
  have hn : 0 < cities.length := List.length_pos.mpr hne
  have hb : 0 ≤ randomIndex cities.length r ∧
      randomIndex cities.length r < (cities.length : ℤ) :=
    ⟨randomIndex_nonneg _ _ h0, randomIndex_lt _ _ hn h1⟩
  have hsome : getRandomCity cities r =
      some (cities.get ⟨(randomIndex cities.length r).toNat, by omega⟩) := by
    rw [getRandomCity, dif_pos hb]
  exact ⟨_, hsome, List.get_mem _ _ _⟩

lemma runStep_fail_counts (cities : List City) (a : Attempt)
    (h : (runStep cities a).2 = .fail) :
    (runStep cities a).1.countP isDraw = 1 ∧
    (runStep cities a).1.countP isGeoCall = 1 ∧
    (runStep cities a).1.countP isWeatherCall ≤ 1 ∧
    (runStep cities a).1.countP isSleep = 0 := by
  unfold runStep at *
  cases hg : getRandomCity cities a.r with
  | none => rw [hg] at h; simp at h
  | some city =>
    cases hr : reverseGeocode a.geoNet with
    | none =>
      simp [List.countP_cons, isDraw, isGeoCall, isWeatherCall, isSleep]
    | some geo =>
      cases hw : weatherCheck (fetchWeather a.weatherNet) with
      | none =>
        simp [List.countP_cons, isDraw, isGeoCall, isWeatherCall, isSleep]
      | some t =>
        obtain ⟨wd, cur, hrly⟩ := t
        rw [hg, hr, hw] at h
        simp at h

lemma runStep_success_shape (cities : List City) (a : Attempt)
    (resp : WeatherResponse) (h : (runStep cities a).2 = .success resp) :
    ∃ city, (runStep cities a).1 = [.draw city, .geoCall, .weatherCall] := by
  unfold runStep at *
  cases hg : getRandomCity cities a.r with
  | none => rw [hg] at h; simp at h
  | some city =>
    cases hr : reverseGeocode a.geoNet with
    | none => rw [hg, hr] at h; simp at h
    | some geo =>
      cases hw : weatherCheck (fetchWeather a.weatherNet) with
      | none => rw [hg, hr, hw] at h; simp at h
      | some t => obtain ⟨wd, cur, hrly⟩ := t; exact ⟨city, rfl⟩

lemma runStep_success_inv (cities : List City) (a : Attempt)
    (resp : WeatherResponse) (h : (runStep cities a).2 = .success resp) :
    ∃ city geo wd cur hr,
      getRandomCity cities a.r = some city ∧
      reverseGeocode a.geoNet = some geo ∧
      weatherCheck (fetchWeather a.weatherNet) = some (wd, cur, hr) ∧
      resp = buildResponse city geo wd cur hr := by
  unfold runStep at h
  cases hg : getRandomCity cities a.r with
  | none => rw [hg] at h; simp at h
  | some city =>
    cases hr : reverseGeocode a.geoNet with
    | none => rw [hg, hr] at h; simp at h
    | some geo =>
      cases hw : weatherCheck (fetchWeather a.weatherNet) with
      | none => rw [hg, hr, hw] at h; simp at h
      | some t =>
        obtain ⟨wd, cur, hrly⟩ := t
        rw [hg, hr, hw] at h
        simp only [StepRes.success.injEq] at h
        exact ⟨city, geo, wd, cur, hrly, rfl, rfl, rfl, h.symm⟩

lemma runStep_ne_crash (cities : List City) (a : Attempt)
    (hne : cities ≠ []) (h0 : 0 ≤ a.r) (h1 : a.r < 1) :
    (runStep cities a).2 ≠ .crash := by
  obtain ⟨c, hc, -⟩ := getRandomCity_eq_some cities a.r hne h0 h1
  unfold runStep
  rw [hc]
  cases reverseGeocode a.geoNet with
  | none => simp
  | some geo =>
    cases weatherCheck (fetchWeather a.weatherNet) with
    | none => simp
    | some t => obtain ⟨wd, cur, hrly⟩ := t; simp

lemma runStep_no_sleep (cities : List City) (a : Attempt) (ms : Nat) :
    Event.sleep ms ∉ (runStep cities a).1 := by
  unfold runStep
  cases getRandomCity cities a.r with
  | none => simp
  | some city =>
    cases reverseGeocode a.geoNet with
    | none => simp
    | some geo =>
      cases weatherCheck (fetchWeather a.weatherNet) with
      | none => simp
      | some t => obtain ⟨wd, cur, hrly⟩ := t; simp

lemma go_zero (cities : List City) (env : Nat → Attempt) (attempt : Nat) :
    go cities env attempt 0 = ([], .respond 503 (.error errorBody)) := rfl

lemma go_succ_crash (cities : List City) (env : Nat → Attempt)
    (attempt fuel : Nat) (evs : List Event)
    (h : runStep cities (env attempt) = (evs, .crash)) :
    go cities env attempt (fuel + 1) = (evs, .crash) := by
  simp only [go, h]

lemma go_succ_success (cities : List City) (env : Nat → Attempt)
    (attempt fuel : Nat) (evs : List Event) (resp : WeatherResponse)
    (h : runStep cities (env attempt) = (evs, .success resp)) :
    go cities env attempt (fuel + 1) = (evs, .respond 200 (.weather resp)) := by
  simp only [go, h]

lemma go_succ_fail (cities : List City) (env : Nat → Attempt)
    (attempt fuel : Nat) (evs : List Event)
    (h : runStep cities (env attempt) = (evs, .fail)) :
    go cities env attempt (fuel + 1) =
      if attempt < maxAttempts then
        (evs ++ Event.sleep retryDelay :: (go cities env (attempt + 1) fuel).1,
          (go cities env (attempt + 1) fuel).2)
      else (evs, .respond 503 (.error errorBody)) := by
  simp only [go, h]

lemma go_status (cities : List City) (env : Nat → Attempt) (hc : cities ≠ [])
    (hb : ∀ k, 0 ≤ (env k).r ∧ (env k).r < 1) :
    ∀ fuel attempt,
      (∃ w, (go cities env attempt fuel).2 = .respond 200 (.weather w)) ∨
      (go cities env attempt fuel).2 = .respond 503 (.error errorBody) := by
  intro fuel
  induction fuel with
  | zero => intro attempt; right; rw [go_zero]
  | succ fuel ih =>
    intro attempt
    rcases hstep : runStep cities (env attempt) with ⟨evs, res⟩
    cases res with
    | crash =>
      have hnc := runStep_ne_crash cities (env attempt) hc
        (hb attempt).1 (hb attempt).2
      rw [hstep] at hnc
      simp at hnc
    | success resp =>
      left
      exact ⟨resp, by rw [go_succ_success cities env attempt fuel evs resp hstep]⟩
    | fail =>
      rw [go_succ_fail cities env attempt fuel evs hstep]
      by_cases hlt : attempt < maxAttempts
      · rw [if_pos hlt]
        simpa using ih (attempt + 1)
      · rw [if_neg hlt]
        right
        rfl

lemma go_success_inv (cities : List City) (env : Nat → Attempt) :
    ∀ fuel attempt tr w,
      go cities env attempt fuel = (tr, .respond 200 (.weather w)) →
      ∃ k, attempt ≤ k ∧ k < attempt + fuel ∧
        (runStep cities (env k)).2 = .success w := by
  intro fuel
  induction fuel with
  | zero =>
    intro attempt tr w h
    rw [go_zero] at h
    simp at h
  | succ fuel ih =>
    intro attempt tr w h
    rcases hstep : runStep cities (env attempt) with ⟨evs, res⟩
    cases res with
    | crash =>
      rw [go_succ_crash cities env attempt fuel evs hstep] at h
      simp at h
    | success resp =>
      rw [go_succ_success cities env attempt fuel evs resp hstep] at h
      simp only [Prod.mk.injEq, ReqOutcome.respond.injEq, Body.weather.injEq] at h
      refine ⟨attempt, le_refl _, by omega, ?_⟩
      rw [hstep]
      simp [h.2.2]
    | fail =>
      rw [go_succ_fail cities env attempt fuel evs hstep] at h
      by_cases hlt : attempt < maxAttempts
      · rw [if_pos hlt] at h
        have h2 : (go cities env (attempt + 1) fuel).2 =
            .respond 200 (.weather w) := by
          have := congrArg Prod.snd h
          simpa using this
        obtain ⟨k, hk1, hk2, hk3⟩ :=
          ih (attempt + 1) (go cities env (attempt + 1) fuel).1 w (by rw [← h2])
        exact ⟨k, by omega, by omega, hk3⟩
      · rw [if_neg hlt] at h
        simp at h

lemma go_first_success (cities : List City) (env : Nat → Attempt)
    (resp : WeatherResponse) :
    ∀ fuel attempt k, attempt + fuel = maxAttempts + 1 → k ≤ maxAttempts →
      attempt ≤ k →
      (∀ j, attempt ≤ j → j < k → (runStep cities (env j)).2 = .fail) →
      (runStep cities (env k)).2 = .success resp →
      ∃ tr, go cities env attempt fuel = (tr, .respond 200 (.weather resp)) ∧
        tr.countP isDraw = k + 1 - attempt ∧
        tr.countP isGeoCall = k + 1 - attempt ∧
        tr.countP isWeatherCall ≤ k + 1 - attempt ∧
        tr.countP isSleep = k - attempt := by
  intro fuel
  induction fuel with
  | zero =>
    intro attempt k hsum hk hak hfail hsucc
    omega
  | succ fuel ih =>
    intro attempt k hsum hk hak hfail hsucc
    rcases hstep : runStep cities (env attempt) with ⟨evs, res⟩
    by_cases heq : attempt = k
    · subst heq
      rw [hstep] at hsucc
      simp only at hsucc
      subst hsucc
      obtain ⟨city, hevs⟩ :=
        runStep_success_shape cities (env attempt) resp (by rw [hstep])
      rw [hstep] at hevs
      simp only at hevs
      subst hevs
      refine ⟨_, go_succ_success cities env attempt fuel _ resp hstep, ?_, ?_, ?_, ?_⟩
      · simp [List.countP_cons, isDraw, isGeoCall, isWeatherCall]
      · simp [List.countP_cons, isDraw, isGeoCall, isWeatherCall]
      · simp [List.countP_cons, isDraw, isGeoCall, isWeatherCall]
      · simp [List.countP_cons, isSleep]
    · have hlt : attempt < k := by omega
      have hfa := hfail attempt (le_refl _) hlt
      rw [hstep] at hfa
      simp only at hfa
      subst hfa
      obtain ⟨hc1, hc2, hc3, hc4⟩ :=
        runStep_fail_counts cities (env attempt) (by rw [hstep])
      rw [hstep] at hc1 hc2 hc3 hc4
      simp only at hc1 hc2 hc3 hc4
      have hltM : attempt < maxAttempts := by omega
      rw [go_succ_fail cities env attempt fuel evs hstep, if_pos hltM]
      obtain ⟨tr, hgo, hd, hg2, hw2, hs⟩ := ih (attempt + 1) k (by omega) hk
        (by omega) (fun j hj1 hj2 => hfail j (by omega) hj2) hsucc
      refine ⟨evs ++ Event.sleep retryDelay :: tr, ?_, ?_, ?_, ?_, ?_⟩
      · rw [hgo]
      · simp only [List.countP_append, List.countP_cons]
        simp [isDraw]
        omega
      · simp only [List.countP_append, List.countP_cons]
        simp [isGeoCall]
        omega
      · simp only [List.countP_append, List.countP_cons]
        simp [isWeatherCall]
        omega
      · simp only [List.countP_append, List.countP_cons]
        simp [isSleep]
        omega

lemma go_all_fail (cities : List City) (env : Nat → Attempt) :
    ∀ fuel attempt, attempt + fuel = maxAttempts + 1 →
      (∀ j, attempt ≤ j → j ≤ maxAttempts → (runStep cities (env j)).2 = .fail) →
      ∃ tr, go cities env attempt fuel = (tr, .respond 503 (.error errorBody)) ∧
        tr.countP isDraw = maxAttempts + 1 - attempt ∧
        tr.countP isSleep = maxAttempts - attempt ∧
        ∀ ms, Event.sleep ms ∈ tr → ms = retryDelay := by
  intro fuel
  induction fuel with
  | zero =>
    intro attempt hsum hfail
    refine ⟨[], go_zero cities env attempt, ?_, ?_, ?_⟩
    · simp
      omega
    · simp
      omega
    · simp
  | succ fuel ih =>
    intro attempt hsum hfail
    have hattempt : attempt ≤ maxAttempts := by omega
    rcases hstep : runStep cities (env attempt) with ⟨evs, res⟩
    have hfa := hfail attempt (le_refl _) hattempt
    rw [hstep] at hfa
    simp only at hfa
    subst hfa
    obtain ⟨hc1, hc2, hc3, hc4⟩ :=
      runStep_fail_counts cities (env attempt) (by rw [hstep])
    rw [hstep] at hc1 hc2 hc3 hc4
    simp only at hc1 hc2 hc3 hc4
    have hnosleep : ∀ ms, Event.sleep ms ∉ evs := by
      intro ms
      have := runStep_no_sleep cities (env attempt) ms
      rw [hstep] at this
      simpa using this
    by_cases hlt : attempt < maxAttempts
    · rw [go_succ_fail cities env attempt fuel evs hstep, if_pos hlt]
      obtain ⟨tr, hgo, hd, hs, hmem⟩ := ih (attempt + 1) (by omega)
        (fun j hj1 hj2 => hfail j (by omega) hj2)
      refine ⟨evs ++ Event.sleep retryDelay :: tr, ?_, ?_, ?_, ?_⟩
      · rw [hgo]
      · simp only [List.countP_append, List.countP_cons]
        simp [isDraw]
        omega
      · simp only [List.countP_append, List.countP_cons]
        simp [isSleep]
        omega
      · intro ms hms
        rcases List.mem_append.mp hms with hin | hin
        · exact absurd hin (hnosleep ms)
        · rcases List.mem_cons.mp hin with hin2 | hin2
          · simpa using hin2
          · exact hmem ms hin2
    · have hEq : attempt = maxAttempts := by omega
      rw [go_succ_fail cities env attempt fuel evs hstep, if_neg hlt]
      refine ⟨evs, rfl, ?_, ?_, ?_⟩
      · omega
      · omega
      · intro ms hms
        exact absurd hms (hnosleep ms)

lemma hourlyForecast_length (hr : MeteoHourly) :
    (hourlyForecast hr).length = min 24 hr.time.length := by
  simp [hourlyForecast]

lemma hourlyForecast_get (hr : MeteoHourly) (i : Nat)
    (hi : i < (hourlyForecast hr).length) :
    (hourlyForecast hr).get ⟨i, hi⟩ =
      ⟨hr.time.get ⟨i, by have := hourlyForecast_length hr; omega⟩,
        hr.temperature_2m.get? i, hr.wind_speed_10m.get? i⟩ := by
  have hlen : i < (hr.time.take 24).length := by
    have := hourlyForecast_length hr
    simp only [List.length_take]
    omega
  unfold hourlyForecast
  rw [List.get_mapIdx _ _ i hlen]
  congr 1
  simp [List.get_eq_getElem, List.getElem_take]

/-! ### The claims -/

/-- C1: every request to `GET /api/randomWeather` produces exactly one of
two outcomes — HTTP 200 with a `WeatherResponse` body when some attempt
fully succeeds, or HTTP 503 with the fixed
`{error: "Service Unavailable", message: ...}` body after exhaustion; no
other status code is produced (assuming the served city list is
non-empty and `Math.random()` draws lie in `[0, 1)`). -/
theorem C1_endpoint_two_outcomes (cities : List City) (env : Nat → Attempt)
    (hc : cities ≠ []) (hb : ∀ k, 0 ≤ (env k).r ∧ (env k).r < 1) :
    (∃ w, (handleRequest cities env).2 = .respond 200 (.weather w)) ∨
    (handleRequest cities env).2 = .respond 503 (.error errorBody) :=
  go_status cities env hc hb maxAttempts 1

/-- Witness for C1 at the concrete one-city dataset and all-failing
environment. -/
theorem C1_witness_instance :
    (∃ w, (handleRequest [city0] envFail).2 = .respond 200 (.weather w)) ∨
    (handleRequest [city0] envFail).2 = .respond 503 (.error errorBody) :=
  C1_endpoint_two_outcomes [city0] envFail (by simp)
    (fun k => ⟨by norm_num [envFail], by norm_num [envFail]⟩)

/-- C2: if attempts `1, ..., k-1` fail and attempt `k` (with
`1 ≤ k ≤ 10`) fully succeeds, the handler returns HTTP 200 with the
response assembled on attempt `k`, having drawn exactly `k` cities, made
exactly `k` geocoding calls, at most `k` weather calls, and slept
exactly `k - 1` times — nothing happens after the first fully
successful attempt. -/
theorem C2_first_success_immediate (cities : List City) (env : Nat → Attempt)
    (k : Nat) (resp : WeatherResponse) (hk1 : 1 ≤ k) (hk2 : k ≤ maxAttempts)
    (hfail : ∀ j, 1 ≤ j → j < k → (runStep cities (env j)).2 = .fail)
    (hsucc : (runStep cities (env k)).2 = .success resp) :
    ∃ tr, handleRequest cities env = (tr, .respond 200 (.weather resp)) ∧
      tr.countP isDraw = k ∧ tr.countP isGeoCall = k ∧
      tr.countP isWeatherCall ≤ k ∧ tr.countP isSleep = k - 1 := by
  obtain ⟨tr, hgo, hd, hg, hw, hs⟩ := go_first_success cities env resp
    maxAttempts 1 k (by omega) hk2 hk1 hfail hsucc
  exact ⟨tr, hgo, by omega, by omega, by omega, by omega⟩

/-- Witness for C2: success on the first attempt of the sample
environment. -/
theorem C2_witness_instance :
    ∃ tr, handleRequest [city0] envGood = (tr, .respond 200 (.weather resp0)) ∧
      tr.countP isDraw = 1 ∧ tr.countP isGeoCall = 1 ∧
      tr.countP isWeatherCall ≤ 1 ∧ tr.countP isSleep = 1 - 1 :=
  C2_first_success_immediate [city0] envGood 1 resp0 (le_refl 1) (by decide)
    (fun j hj1 hj2 => absurd hj2 (by omega))
    (by simp [runStep, envGood, getRandomCity_cons_zero, reverseGeocode, goodGeo,
      fetchWeather, weatherCheck, wd0, geo0, resp0])

/-- C3: if every one of the 10 attempts fails, the handler answers 503
with the fixed error body, draws exactly 10 cities, and performs exactly
9 inter-attempt sleeps, every one of 1100 ms (no sleep after the final
attempt). -/
theorem C3_exhaustion_nine_sleeps (cities : List City) (env : Nat → Attempt)
    (hfail : ∀ j, 1 ≤ j → j ≤ maxAttempts → (runStep cities (env j)).2 = .fail) :
    ∃ tr, handleRequest cities env = (tr, .respond 503 (.error errorBody)) ∧
      tr.countP isDraw = 10 ∧ tr.countP isSleep = 9 ∧
      ∀ ms, Event.sleep ms ∈ tr → ms = 1100 := by
  have hM : maxAttempts = 10 := rfl
  have hR : retryDelay = 1100 := rfl
  obtain ⟨tr, hgo, hd, hs, hmem⟩ := go_all_fail cities env maxAttempts 1
    (by omega) (fun j hj1 hj2 => hfail j hj1 hj2)
  refine ⟨tr, hgo, by omega, by omega, ?_⟩
  intro ms h
  have := hmem ms h
  omega

/-- Witness for C3 at the concrete one-city dataset and all-failing
environment. -/
theorem C3_witness_instance :
    ∃ tr, handleRequest [city0] envFail = (tr, .respond 503 (.error errorBody)) ∧
      tr.countP isDraw = 10 ∧ tr.countP isSleep = 9 ∧
      ∀ ms, Event.sleep ms ∈ tr → ms = 1100 :=
  C3_exhaustion_nine_sleeps [city0] envFail
    (fun j _ _ => by simp [runStep, envFail, getRandomCity_cons_zero, reverseGeocode])

/-- C4: when the three hourly parallel arrays have equal length `n`,
`forecast.hourly` of the assembled response has length `min 24 n`, and
each entry at index `i` pairs the `i`-th time stamp with the `i`-th
temperature and the `i`-th wind speed (upstream order preserved, no
padding, no `undefined` fields). -/
theorem C4_hourly_truncation_alignment (city : City) (geo : Resolved)
    (wd : OpenMeteoResponse) (cur : MeteoCurrent) (hr : MeteoHourly) (n : Nat)
    (ht : hr.time.length = n) (htemp : hr.temperature_2m.length = n)
    (hwind : hr.wind_speed_10m.length = n) :
    ((buildResponse city geo wd cur hr).forecast.hourly).length = min 24 n ∧
    ∀ i e, ((buildResponse city geo wd cur hr).forecast.hourly).get? i = some e →
      hr.time.get? i = some e.time ∧
      e.temperature = hr.temperature_2m.get? i ∧
      e.windSpeed = hr.wind_speed_10m.get? i ∧
      (∃ q, e.temperature = some q) ∧ (∃ q, e.windSpeed = some q) := by
  have hfh : (buildResponse city geo wd cur hr).forecast.hourly =
      hourlyForecast hr := rfl
  rw [hfh]
  have hlenf := hourlyForecast_length hr
  constructor
  · rw [hlenf, ht]
  · intro i e he
    have hilen : i < (hourlyForecast hr).length := by
      by_contra hcon
      rw [List.get?_eq_none.mpr (by omega)] at he
      exact Option.noConfusion he
    rw [List.get?_eq_get hilen, hourlyForecast_get hr i hilen] at he
    obtain rfl := Option.some.inj he
    have hit : i < hr.time.length := by omega
    refine ⟨List.get?_eq_get hit, rfl, rfl, ?_, ?_⟩
    · exact ⟨_, List.get?_eq_get (by omega)⟩
    · exact ⟨_, List.get?_eq_get (by omega)⟩

/-- Witness for C4 at the sample hourly data (`n = 2`). -/
theorem C4_witness_instance :
    ((buildResponse city0 geo0 wd0 cur0 hourly0).forecast.hourly).length =
        min 24 2 ∧
    ∀ i e,
      ((buildResponse city0 geo0 wd0 cur0 hourly0).forecast.hourly).get? i =
          some e →
      hourly0.time.get? i = some e.time ∧
      e.temperature = hourly0.temperature_2m.get? i ∧
      e.windSpeed = hourly0.wind_speed_10m.get? i ∧
      (∃ q, e.temperature = some q) ∧ (∃ q, e.windSpeed = some q) :=
  C4_hourly_truncation_alignment city0 geo0 wd0 cur0 hourly0 2 rfl rfl rfl

/-- C5: every 200 response was assembled on some attempt `k ≤ 10` from
the city record drawn on that attempt: `chosenPlace.latitude` and
`chosenPlace.longitude` are exactly that city record's coordinates (the
geocoding result, which carries no coordinates at all, only contributes
the display name and country). -/
theorem C5_coords_from_drawn_city (cities : List City) (env : Nat → Attempt)
    (tr : List Event) (w : WeatherResponse)
    (h : handleRequest cities env = (tr, .respond 200 (.weather w))) :
    ∃ k city geo wd cur hr, 1 ≤ k ∧ k ≤ maxAttempts ∧
      getRandomCity cities (env k).r = some city ∧
      reverseGeocode (env k).geoNet = some geo ∧
      w = buildResponse city geo wd cur hr ∧
      w.chosenPlace.latitude = city.latitude ∧
      w.chosenPlace.longitude = city.longitude := by
  obtain ⟨k, hk1, hk2, hks⟩ := go_success_inv cities env maxAttempts 1 tr w h
  obtain ⟨city, geo, wd, cur, hr, hg, hgeo, hwc, hresp⟩ :=
    runStep_success_inv cities (env k) w hks
  exact ⟨k, city, geo, wd, cur, hr, hk1, by omega, hg, hgeo, hresp,
    by subst hresp; rfl, by subst hresp; rfl⟩

/-- Witness for C5 at the sample environment succeeding on attempt 1. -/
theorem C5_witness_instance :
    ∃ k city geo wd cur hr, 1 ≤ k ∧ k ≤ maxAttempts ∧
      getRandomCity [city0] (envGood k).r = some city ∧
      reverseGeocode (envGood k).geoNet = some geo ∧
      resp0 = buildResponse city geo wd cur hr ∧
      resp0.chosenPlace.latitude = city.latitude ∧
      resp0.chosenPlace.longitude = city.longitude :=
  C5_coords_from_drawn_city [city0] envGood
    [.draw city0, .geoCall, .weatherCall] resp0
    (by simp [handleRequest, maxAttempts, go, runStep, envGood,
      getRandomCity_cons_zero, reverseGeocode, goodGeo, fetchWeather,
      weatherCheck, wd0, geo0, resp0])

/-- C6: the weather-fetch operation (the `fetchWeather` call composed
with the handler's `current`/`hourly` presence check, the spec's
`fetchForecast`) yields `None` on a transport error or timeout, on a
non-2xx status, and on a body missing the `current` or `hourly`
section. -/
theorem C6_fetchForecast_failure_none (net : NetResult OpenMeteoResponse)
    (h : net = .err ∨ (∃ s, net = .notOk s) ∨
      ∃ d, net = .ok d ∧ (d.current = none ∨ d.hourly = none)) :
    fetchForecast net = none := by
  rcases h with rfl | ⟨s, rfl⟩ | ⟨d, rfl, hd⟩
  · rfl
  · rfl
  · rcases hd with h1 | h1
    · simp [fetchForecast, fetchWeather, weatherCheck, h1]
    · cases hc : d.current <;>
        simp [fetchForecast, fetchWeather, weatherCheck, h1, hc]

/-- Witness for C6 at a transport error. -/
theorem C6_witness_instance : fetchForecast (NetResult.err) = none :=
  C6_fetchForecast_failure_none NetResult.err (Or.inl rfl)

/-- C7: `reverseGeocode` returns `None` on timeout/transport error, on a
non-2xx status, and when the display name or the country is absent; it
never throws (it is a total function into `Option`), and it returns
`Some {displayName, country}` only when both fields are present (and
non-empty, per JavaScript truthiness) in the upstream reply. -/
theorem C7_reverseGeocode_contract (net : NetResult NominatimResponse) :
    ((net = .err ∨ (∃ s, net = .notOk s) ∨
        ∃ d, net = .ok d ∧ (d.display_name = none ∨
          d.address.bind (fun a => a.country) = none)) →
      reverseGeocode net = none) ∧
    ∀ res, reverseGeocode net = some res →
      ∃ d, net = .ok d ∧ d.display_name = some res.displayName ∧
        d.address.bind (fun a => a.country) = some res.country ∧
        res.displayName ≠ "" ∧ res.country ≠ "" := by
  constructor
  · rintro (rfl | ⟨s, rfl⟩ | ⟨d, rfl, hd⟩)
    · rfl
    · rfl
    · rcases hd with h1 | h1
      · simp [reverseGeocode, h1]
      · cases hdn : d.display_name <;> simp [reverseGeocode, h1, hdn]
  · intro res h
    cases net with
    | err => simp [reverseGeocode] at h
    | notOk s => simp [reverseGeocode] at h
    | ok d =>
      simp only [reverseGeocode] at h
      cases hdn : d.display_name with
      | none => rw [hdn] at h; simp at h
      | some dn =>
        cases hc : d.address.bind (fun a => a.country) with
        | none => rw [hdn, hc] at h; simp at h
        | some c =>
          rw [hdn, hc] at h
          have h2 : (if dn = "" ∨ c = "" then (none : Option Resolved)
              else some ⟨dn, c⟩) = some res := h
          by_cases hemp : dn = "" ∨ c = ""
          · rw [if_pos hemp] at h2
            exact absurd h2 (by simp)
          · rw [if_neg hemp] at h2
            obtain rfl := Option.some.inj h2
            push_neg at hemp
            exact ⟨d, rfl, hdn, hc, hemp.1, hemp.2⟩

/-- Witness for C7 at a transport error. -/
theorem C7_witness_instance : reverseGeocode (NetResult.err) = none :=
  (C7_reverseGeocode_contract NetResult.err).1 (Or.inl rfl)

/-- C8 counterexample: an empty but parsable dataset (`[]`) is accepted
at startup — the process serves with zero cities instead of failing
fatally, so "empty or unparsable → terminate" is false as stated and
serving does not imply a non-empty city list. -/
theorem C8_counterexample_empty_dataset :
    startup (some ([] : List City)) = .serving [] ∧
    ∀ code, startup (some ([] : List City)) ≠ .exited code := by
  refine ⟨rfl, ?_⟩
  intro code h
  exact StartResult.noConfusion h

/-- C8 (amended): if the dataset is missing or unparsable the process
exits with code 1 before serving; any parsed dataset — including the
empty list — is served as loaded (so serving implies the dataset
parsed, not that it is non-empty). -/
theorem C8_amended_startup_contract (raw : Option (List City)) :
    (raw = none → startup raw = .exited 1) ∧
    ∀ cs, startup raw = .serving cs → raw = some cs := by
  constructor
  · rintro rfl
    rfl
  · intro cs h
    cases raw with
    | none => exact absurd h (by simp [startup])
    | some cs2 =>
      simp only [startup, StartResult.serving.injEq] at h
      rw [h]

/-- Witness for C8 (amended) at a missing dataset. -/
theorem C8_witness_instance :
    startup (none : Option (List City)) = .exited 1 :=
  (C8_amended_startup_contract none).1 rfl

/-- C9: the fixed fields of every 200 response are constant and
independent of the chosen city and upstream data, but the temperature
unit the code ships is the mojibake string `"¬∞C"` (U+00AC U+221E
`C`), not the `"°C"` the claim, the spec and the repository README
state; `windSpeedUnit` and the two data-source attributions are as
claimed. -/
theorem C9_fixed_fields_mojibake (city : City) (geo : Resolved)
    (wd : OpenMeteoResponse) (cur : MeteoCurrent) (hr : MeteoHourly) :
    (buildResponse city geo wd cur hr).forecast.current.temperatureUnit =
        "¬∞C" ∧
    (buildResponse city geo wd cur hr).forecast.current.temperatureUnit ≠
        "°C" ∧
    (buildResponse city geo wd cur hr).forecast.current.windSpeedUnit =
        "km/h" ∧
    (buildResponse city geo wd cur hr).dataSources.geocoding =
        "OpenStreetMap Nominatim (https://nominatim.openstreetmap.org)" ∧
    (buildResponse city geo wd cur hr).dataSources.weather =
        "Open-Meteo (https://open-meteo.com)" := by
  refine ⟨rfl, ?_, rfl, rfl, rfl⟩
  show ("¬∞C" : String) ≠ "°C"
  decide

/-- C10: for a non-empty city list and any draw `r` with `0 ≤ r < 1`,
`getRandomCity` computes the index `⌊r · N⌋`, which lies in `[0, N)`,
so the array access is in bounds and yields an element of the list. -/
theorem C10_getRandomCity_in_bounds (cities : List City) (r : ℚ)
    (hne : cities ≠ []) (h0 : 0 ≤ r) (h1 : r < 1) :
    randomIndex cities.length r = Int.floor (r * (cities.length : ℚ)) ∧
    0 ≤ randomIndex cities.length r ∧
    randomIndex cities.length r < (cities.length : ℤ) ∧
    ∃ c, getRandomCity cities r = some c ∧ c ∈ cities :=
  ⟨rfl, randomIndex_nonneg _ _ h0,
    randomIndex_lt _ _ (List.length_pos.mpr hne) h1,
    getRandomCity_eq_some cities r hne h0 h1⟩

/-- Witness for C10 at the one-city list and `r = 1/2`. -/
theorem C10_witness_instance :
    randomIndex [city0].length (1 / 2) =
        Int.floor ((1 / 2 : ℚ) * (([city0].length : Nat) : ℚ)) ∧
    0 ≤ randomIndex [city0].length (1 / 2) ∧
    randomIndex [city0].length (1 / 2) < (([city0].length : Nat) : ℤ) ∧
    ∃ c, getRandomCity [city0] (1 / 2) = some c ∧ c ∈ [city0] :=
  C10_getRandomCity_in_bounds [city0] (1 / 2) (by simp) (by norm_num)
    (by norm_num)

end RW
